import Mathlib

/-!
Shallow embedding of the react-components library
(`src/components/ui/sidebar.tsx`, `src/components/AppSidebar.tsx`,
`src/components/Layout.tsx`, `src/components/ErrorBoundary.tsx`)
together with proofs of the testable properties stated in the spec.

JavaScript strings are modelled as Lean `String`s; the JS string methods the
code uses (`split` with a one-character separator, `Array.prototype.join`,
`String.prototype.startsWith`, `charAt(0).toUpperCase() + slice(1)`) are
embedded as structurally recursive functions over the character list `.data`,
so every definition evaluates by kernel reduction.
-/

/-! ## JS string primitives -/

/-- Auxiliary for `jsSplit`: split a character list at every occurrence of
`sep`, keeping empty pieces, as JS `String.prototype.split` does. `acc` holds
the characters of the current piece in reverse. -/
def splitOnCharAux (sep : Char) : List Char → List Char → List (List Char)
  | [], acc => [acc.reverse]
  | c :: rest, acc =>
    if c = sep then acc.reverse :: splitOnCharAux sep rest []
    else splitOnCharAux sep rest (c :: acc)

/-- JS `s.split(sep)` for a one-character separator. -/
def jsSplit (sep : Char) (s : String) : List String :=
  (splitOnCharAux sep s.data []).map String.mk

/-- JS `word.charAt(0).toUpperCase() + word.slice(1)` (Layout.tsx line 193).
On the empty string both `charAt(0)` and `slice(1)` are `""`. -/
def capitalizeWord (w : String) : String :=
  match w.data with
  | [] => ""
  | c :: rest => String.mk (c.toUpper :: rest)

/-- JS `Array.prototype.join(sep)`. -/
def joinWith (sep : String) : List String → String
  | [] => ""
  | [x] => x
  | x :: xs => x ++ sep ++ joinWith sep xs

/-- JS `s.startsWith(p)`: `p`'s character sequence is a prefix of `s`'s. -/
def strStartsWith (s p : String) : Bool :=
  p.data.isPrefixOf s.data

/-- JS truthiness of a `string | null | undefined` value: truthy exactly when
it is a present, non-empty string. -/
def jsTruthy : Option String → Bool
  | none => false
  | some str => str ≠ ""

/-- JS template interpolation of a boolean (the cookie write in
sidebar.tsx line 67 embeds `openState` into the cookie string). -/
def boolString (b : Bool) : String :=
  if b then "true" else "false"

/-! ## Sidebar state machine (`src/components/ui/sidebar.tsx`)

The provider's uncontrolled mode is modelled (no `open` prop and no
`onOpenChange` prop, which is how `Layout` instantiates it): the React state
cell `open` lives in `ProviderState.openState` (`open` is a Lean keyword),
the ref `prevIsMobileRef` in `prevIsMobile`, and the `sidebar_state` cookie's
current value in `cookie` (`none` when the cookie is unset). -/

structure ProviderState where
  openState : Bool
  isMobile : Bool
  prevIsMobile : Bool
  cookie : Option String

/-- The argument accepted by `setOpen`: a literal boolean or an updater
function of the previous value (sidebar.tsx line 59). -/
inductive SetOpenArg where
  | lit (b : Bool)
  | upd (f : Bool → Bool)

/-- `typeof value === "function" ? value(open) : value` (sidebar.tsx line 60). -/
def resolveSetOpenArg (a : SetOpenArg) (prev : Bool) : Bool :=
  match a with
  | .lit b => b
  | .upd f => f prev

/-- The `setOpen` callback (sidebar.tsx lines 58-70), uncontrolled mode:
resolve the argument against the previous `open`, store it with `_setOpen`,
and always persist the resolved boolean into the `sidebar_state` cookie. -/
def setOpen (s : ProviderState) (a : SetOpenArg) : ProviderState :=
  let resolved := resolveSetOpenArg a s.openState
  { s with openState := resolved, cookie := some (boolString resolved) }

/-- The auto-collapse effect (sidebar.tsx lines 90-96): runs after `isMobile`
changes; force-closes only on a desktop-to-mobile transition while open, and
updates `prevIsMobileRef`. It writes state with `_setOpen` only, so the
cookie is untouched. -/
def autoCollapseEffect (s : ProviderState) : ProviderState :=
  let wasDesktopNowMobile := s.isMobile && !s.prevIsMobile
  let s1 := { s with prevIsMobile := s.isMobile }
  if wasDesktopNowMobile && s.openState then { s1 with openState := false } else s1

/-- A viewport-width step observed by the provider: `setIsMobile` fires with
the new measurement, then the auto-collapse effect runs. -/
def resizeTo (s : ProviderState) (m : Bool) : ProviderState :=
  { s with isMobile := m }

/-- The fields of the context value built by the provider (sidebar.tsx
lines 98-106), minus the `setOpen` closure, which is modelled separately by
`setOpen` above. -/
structure SidebarContextValue where
  openState : Bool
  state : String
  isMobile : Bool

/-- What `useSidebar` hands back: the context fields plus `toggleSidebar`,
represented by the `SetOpenArg` that `toggleSidebar` passes to the context's
`setOpen` (sidebar.tsx line 122). -/
structure UseSidebarReturn where
  openState : Bool
  state : String
  isMobile : Bool
  toggleArg : SetOpenArg

/-- The `useSidebar` hook (sidebar.tsx lines 115-124): throws when no
provider context value is present, otherwise returns the context extended
with `toggleSidebar`. -/
def useSidebar (ctx : Option SidebarContextValue) : Except String UseSidebarReturn :=
  match ctx with
  | none => Except.error "useSidebar must be used within SidebarProvider"
  | some c =>
    Except.ok { openState := c.openState, state := c.state, isMobile := c.isMobile,
                toggleArg := SetOpenArg.upd (fun prev => !prev) }

/-- Concrete starting state for witnesses: desktop, closed, no cookie yet. -/
def freshProviderState : ProviderState :=
  { openState := false, isMobile := false, prevIsMobile := false, cookie := none }

/-- A provider state hit by a desktop-to-mobile auto-collapse while the
cookie still reads "true". -/
def staleCookieState : ProviderState :=
  { openState := true, isMobile := true, prevIsMobile := false,
    cookie := some "true" }

/-! ## Active-route detection (`src/components/AppSidebar.tsx` lines 37-42) -/

/-- `isActive` from `AppSidebar`: exact match for the root path, JS
`startsWith` for every other item path. -/
def isActive (pathname : String) (path : String) : Bool :=
  if path = "/" then pathname = "/" else strStartsWith pathname path

/-! ## Breadcrumb derivation (`src/components/Layout.tsx` lines 170-205) -/

structure BreadcrumbItem where
  label : String
  href : String
  isLast : Bool
deriving DecidableEq, Repr

/-- The label chosen for one path segment (Layout.tsx lines 183-195).
`hasResolver` is the presence of the `getBreadcrumbLabel` prop;
`dynamicLabel` is the state set from its result (`none` models JS `null`).
The two JS truthiness tests (`dynamicLabel`, `routeNames[segment]`) are
`jsTruthy`. -/
def crumbLabel (hasResolver : Bool) (dynamicLabel : Option String)
    (routeNames : String → Option String) (isLast : Bool) (segment : String) : String :=
  if hasResolver && isLast && jsTruthy dynamicLabel then
    dynamicLabel.getD ""
  else if jsTruthy (routeNames segment) then
    (routeNames segment).getD ""
  else
    joinWith " " ((jsSplit '-' segment).map capitalizeWord)

/-- The `forEach` over path segments (Layout.tsx lines 179-202): accumulate
`currentPath`, mark the final segment with `isLast`. -/
def buildCrumbs (hasResolver : Bool) (dynamicLabel : Option String)
    (routeNames : String → Option String) : String → List String → List BreadcrumbItem
  | _, [] => []
  | currentPath, seg :: rest =>
    let currentPath1 := currentPath ++ "/" ++ seg
    let isLast := rest.isEmpty
    { label := crumbLabel hasResolver dynamicLabel routeNames isLast seg,
      href := currentPath1, isLast := isLast } ::
      buildCrumbs hasResolver dynamicLabel routeNames currentPath1 rest

/-- The local `pathnames` of `getBreadcrumbs` (Layout.tsx line 171): split
the pathname on `/` and drop empty segments. -/
def pathSegments (pathname : String) : List String :=
  (jsSplit '/' pathname).filter (fun x => x ≠ "")

/-- `getBreadcrumbs` (Layout.tsx lines 170-205): always push the Home entry
first, then one entry per non-empty path segment. -/
def getBreadcrumbs (pathname : String) (hasResolver : Bool)
    (dynamicLabel : Option String) (routeNames : String → Option String) :
    List BreadcrumbItem :=
  { label := "Home", href := "/", isLast := false } ::
    buildCrumbs hasResolver dynamicLabel routeNames "" (pathSegments pathname)

/-! ## Scroll restore on route change (`src/components/Layout.tsx` lines 90-157)

The document is observed only through `document.body.scrollHeight` and
`window.innerHeight`; the pair read at the k-th poll attempt is `heights k`.
A `window.scrollTo` call is modelled by `ScrollCommand`; `behavior: 'auto'`
means `smooth := false`. -/

structure ScrollCommand where
  top : Int
  smooth : Bool
deriving DecidableEq, Repr

/-- One invocation of `tryRestore` (Layout.tsx lines 109-138) with `attempts`
prior attempts made: increment the counter, read the document, and either
issue the clamped jump or retry. `maxAttempts` is 10. -/
def tryRestore (saved : Int) (heights : Nat → Nat × Nat) (attempts : Nat) : ScrollCommand :=
  if h : (heights (attempts + 1)).2 < (heights (attempts + 1)).1 ∨ 10 ≤ attempts + 1 then
    { top := min saved (((heights (attempts + 1)).1 : Int) - ((heights (attempts + 1)).2 : Int)),
      smooth := false }
  else
    tryRestore saved heights (attempts + 1)
termination_by 10 - attempts
decreasing_by
  push_neg at h
  omega

/-- The route-change effect (Layout.tsx lines 90-157), reduced to the scroll
command it issues: restore through the poll when a stored offset exists and
is positive, otherwise jump to the top. -/
def routeChangeScroll (saved : Option Int) (heights : Nat → Nat × Nat) : ScrollCommand :=
  match saved with
  | some p => if 0 < p then tryRestore p heights 0 else { top := 0, smooth := false }
  | none => { top := 0, smooth := false }

/-! ## ErrorBoundary (`src/components/ErrorBoundary.tsx`) -/

inductive RenderOutput where
  | fallback
  | childrenOut
deriving DecidableEq, Repr

structure EBState where
  hasError : Bool
  error : Option String
  errorInfo : Option String
deriving DecidableEq, Repr

/-- The constructor's initial state (ErrorBoundary.tsx line 17). -/
def ebInitial : EBState :=
  { hasError := false, error := none, errorInfo := none }

/-- `static getDerivedStateFromError` (ErrorBoundary.tsx lines 20-22):
merges `\x7b hasError: true \x7d` into the state. -/
def getDerivedStateFromError (s : EBState) : EBState :=
  { s with hasError := true }

/-- `componentDidCatch` (ErrorBoundary.tsx lines 24-30): stores the error and
info; never touches `hasError`. -/
def componentDidCatch (s : EBState) (e info : String) : EBState :=
  { s with error := some e, errorInfo := some info }

/-- `render` (ErrorBoundary.tsx lines 32-84): the static fallback screen when
`hasError`, the original children otherwise. -/
def render (s : EBState) : RenderOutput :=
  if s.hasError then RenderOutput.fallback else RenderOutput.childrenOut

/-- The only internal state transition the class performs: a child throws
during render, so React runs `getDerivedStateFromError` and then
`componentDidCatch`. No other `setState` call exists in the class. -/
inductive EBStep : EBState → EBState → Prop where
  | caught (s : EBState) (e info : String) :
      EBStep s (componentDidCatch (getDerivedStateFromError s) e info)

/-! ## Helper lemmas -/

/-- A single `setOpen` call re-serializes the resolved boolean into the
cookie, so cookie and state agree immediately after it. -/
theorem setOpen_cookie (s : ProviderState) (a : SetOpenArg) :
    (setOpen s a).cookie = some (boolString (setOpen s a).openState) := rfl

/-- Folding further `setOpen` calls preserves the cookie/state agreement. -/
theorem foldl_setOpen_cookie (args : List SetOpenArg) :
    ∀ s : ProviderState, s.cookie = some (boolString s.openState) →
      (args.foldl setOpen s).cookie =
        some (boolString ((args.foldl setOpen s).openState)) := by
  induction args with
  | nil => intro s h; exact h
  | cons a rest ih => intro s _; exact ih (setOpen s a) (setOpen_cookie s a)

/-- Claim C1: for every sequence of `setOpen` calls (literal booleans or
updater functions of the previous value), after each call the persisted
`sidebar_state` cookie value equals the string form of the latest resolved
open boolean. Stated for every nonempty call sequence from every starting
provider state; instantiating it at every prefix of a sequence gives the
after-each-call reading. -/
theorem setOpen_cookie_matches_open (s : ProviderState) (args : List SetOpenArg)
    (h : args ≠ []) :
    (args.foldl setOpen s).cookie =
      some (boolString ((args.foldl setOpen s).openState)) := by
  match args with
  | a :: rest => exact foldl_setOpen_cookie rest (setOpen s a) (setOpen_cookie s a)

/-- Witness for C1 at the call sequence `[setOpen(o => !o), setOpen(true)]`. -/
theorem setOpen_cookie_matches_open_witness :
    (([SetOpenArg.upd (fun o => !o), SetOpenArg.lit true].foldl setOpen
        freshProviderState).cookie = some "true") :=
  (setOpen_cookie_matches_open freshProviderState
      [SetOpenArg.upd (fun o => !o), SetOpenArg.lit true]
      (List.cons_ne_nil _ _)).trans rfl

/-- Claim C2: on a viewport step, a false-to-true `isMobile` transition while
open forces the sidebar closed, and a step taken while already mobile never
changes the open state (in particular it never auto-closes an open sidebar).
The hypothesis records that `prevIsMobileRef` agrees with `isMobile` before a
new measurement arrives, which the effect itself re-establishes after every
run. -/
theorem mobile_transition_autocollapse (s : ProviderState) (m : Bool)
    (hsync : s.prevIsMobile = s.isMobile) :
    ((s.isMobile = false → m = true → s.openState = true →
        (autoCollapseEffect (resizeTo s m)).openState = false) ∧
     (s.isMobile = true →
        (autoCollapseEffect (resizeTo s m)).openState = s.openState)) := by
  obtain ⟨o, im, pm, ck⟩ := s
  simp only at hsync
  subst hsync
  cases o <;> cases pm <;> cases m <;>
    simp [autoCollapseEffect, resizeTo]

/-- Witness for C2: an open desktop sidebar transitioning into mobile closes,
and an already-mobile open sidebar survives a same-width step. -/
theorem mobile_transition_autocollapse_witness :
    ((autoCollapseEffect (resizeTo
        { openState := true, isMobile := false, prevIsMobile := false,
          cookie := none } true)).openState = false) ∧
    ((autoCollapseEffect (resizeTo
        { openState := true, isMobile := true, prevIsMobile := true,
          cookie := none } true)).openState = true) :=
  ⟨(mobile_transition_autocollapse
      { openState := true, isMobile := false, prevIsMobile := false,
        cookie := none } true rfl).1 rfl rfl rfl,
   (mobile_transition_autocollapse
      { openState := true, isMobile := true, prevIsMobile := true,
        cookie := none } true rfl).2 rfl⟩

/-- Claim C10: the auto-collapse effect never rewrites the `sidebar_state`
cookie (it calls `_setOpen` only), so after a forced close the cookie may
still read "true" while the sidebar is closed. -/
theorem autocollapse_preserves_cookie :
    (∀ s : ProviderState, (autoCollapseEffect s).cookie = s.cookie) ∧
    (autoCollapseEffect staleCookieState).openState = false ∧
    (autoCollapseEffect staleCookieState).cookie = some "true" := by
  refine ⟨fun s => ?_, rfl, rfl⟩
  simp only [autoCollapseEffect]
  split <;> rfl

/-- Claim C9: `useSidebar` outside the provider (no context value) throws
immediately; with a provider it never throws and returns the context value
extended with `toggleSidebar`, whose call passes the negating updater to
`setOpen`. -/
theorem useSidebar_contract :
    (useSidebar none = Except.error "useSidebar must be used within SidebarProvider") ∧
    (∀ c : SidebarContextValue, useSidebar (some c) =
        Except.ok { openState := c.openState, state := c.state, isMobile := c.isMobile,
                    toggleArg := SetOpenArg.upd (fun prev => !prev) }) ∧
    (∀ s : ProviderState,
        (setOpen s (SetOpenArg.upd (fun prev => !prev))).openState = !s.openState) :=
  ⟨rfl, fun _ => rfl, fun _ => rfl⟩

/-- Claim C3: an item with path "/" is active exactly on the root pathname;
any other item path is active exactly when the current pathname starts with
it, hence in particular on the item path itself and on every extension of
it. -/
theorem isActive_spec (pathname path : String) :
    ((path = "/" → (isActive pathname path = true ↔ pathname = "/")) ∧
     (path ≠ "/" → (isActive pathname path = true ↔ path.data <+: pathname.data)) ∧
     (path ≠ "/" → isActive path path = true) ∧
     (path ≠ "/" → ∀ suffix : String, isActive (path ++ suffix) path = true)) := by
  refine ⟨?_, ?_, ?_, ?_⟩
  · intro h; subst h; simp [isActive]
  · intro h
    simp [isActive, h, strStartsWith, List.isPrefixOf_iff_prefix]
  · intro h
    simp [isActive, h, strStartsWith, List.isPrefixOf_iff_prefix]
  · intro h suffix
    simp [isActive, h, strStartsWith, List.isPrefixOf_iff_prefix,
          String.data_append, List.prefix_append]

/-- Witness for C3 at the spec's example: "/posts" is active for
"/posts/123" and for itself, and "/" is active for "/". -/
theorem isActive_spec_witness :
    isActive "/" "/" = true ∧ isActive "/posts/123" "/posts" = true ∧
    isActive "/posts" "/posts" = true :=
  ⟨((isActive_spec "/" "/").1 rfl).mpr rfl,
   ((isActive_spec "/posts/123" "/posts").2.1 (by decide)).mpr (by decide),
   (isActive_spec "/posts" "/posts").2.2.1 (by decide)⟩

/-- Claim C5: breadcrumbs for "/posts/my-first-post" with no static route
names and no dynamic label resolver are exactly Home(/), Posts(/posts) and
the terminal entry My First Post(/posts/my-first-post). -/
theorem breadcrumbs_posts_my_first_post :
    getBreadcrumbs "/posts/my-first-post" false none (fun _ => none) =
      [{ label := "Home", href := "/", isLast := false },
       { label := "Posts", href := "/posts", isLast := false },
       { label := "My First Post", href := "/posts/my-first-post", isLast := true }] := by
  decide

/-- Counterexample to C6 as stated: with no resolver and a static route-name
mapping that is present for the segment but maps it to the empty string
(`routeNames["my-post"] = ""`), the code's truthiness test skips the mapping
and the label falls through to the default hyphen-to-title-case transform
("My Post") instead of the present mapped value (""). -/
theorem crumbLabel_empty_mapping_counterexample :
    crumbLabel false none (fun _ => some "") false "my-post" = "My Post" := by
  decide

/-- Claim C6 (amended): the label priority is (1) the caller-supplied dynamic
label when the segment is final, a resolver is supplied and the resolved
label is a non-empty string, (2) otherwise the static route-name mapping for
the raw segment when it is present AND non-empty, (3) otherwise the default
transform splitting on hyphens, capitalizing each word and rejoining with
spaces. (The original claim used the static mapping whenever present; the
code skips an empty-string mapping, as the counterexample shows.) -/
theorem crumbLabel_priority (hasResolver : Bool) (dynamicLabel : Option String)
    (routeNames : String → Option String) (isLast : Bool) (segment : String) :
    ((∀ l : String, hasResolver = true → isLast = true → dynamicLabel = some l →
        l ≠ "" → crumbLabel hasResolver dynamicLabel routeNames isLast segment = l) ∧
     (∀ r : String,
        ¬(hasResolver = true ∧ isLast = true ∧ jsTruthy dynamicLabel = true) →
        routeNames segment = some r → r ≠ "" →
        crumbLabel hasResolver dynamicLabel routeNames isLast segment = r) ∧
     (¬(hasResolver = true ∧ isLast = true ∧ jsTruthy dynamicLabel = true) →
        (routeNames segment = none ∨ routeNames segment = some "") →
        crumbLabel hasResolver dynamicLabel routeNames isLast segment =
          joinWith " " ((jsSplit '-' segment).map capitalizeWord))) := by
  have hcond : ¬(hasResolver = true ∧ isLast = true ∧ jsTruthy dynamicLabel = true) →
      (hasResolver && isLast && jsTruthy dynamicLabel) = false := by
    intro h
    cases hhr : hasResolver <;> cases hil : isLast <;>
      cases hjt : jsTruthy dynamicLabel <;> simp_all
  refine ⟨?_, ?_, ?_⟩
  · intro l h1 h2 h3 h4
    simp [crumbLabel, h1, h2, h3, jsTruthy, h4]
  · intro r h hr hne
    simp only [crumbLabel]
    rw [hcond h]
    simp [hr, jsTruthy, hne]
  · intro h h2
    simp only [crumbLabel]
    rw [hcond h]
    rcases h2 with h2 | h2 <;> simp [h2, jsTruthy]

/-- Witness for C6 exercising all three priority levels at concrete inputs. -/
theorem crumbLabel_priority_witness :
    crumbLabel true (some "Custom") (fun _ => some "Static") true "seg" = "Custom" ∧
    crumbLabel false none (fun _ => some "Static") true "seg" = "Static" ∧
    crumbLabel false none (fun _ => none) false "my-post" = "My Post" :=
  ⟨(crumbLabel_priority true (some "Custom") (fun _ => some "Static") true "seg").1
      "Custom" rfl rfl rfl (by decide),
   (crumbLabel_priority false none (fun _ => some "Static") true "seg").2.1
      "Static" (by simp) rfl (by decide),
   ((crumbLabel_priority false none (fun _ => none) false "my-post").2.2
      (by simp) (Or.inl rfl)).trans (by decide)⟩

/-- Counterexample to C7 as stated: at the root path the derived list is the
Home entry alone, whose isLast flag is false — the Home entry is always
pushed with `isLast: false`, so the list's last entry is NOT marked terminal
and renders as a link. -/
theorem breadcrumbs_root_counterexample :
    getBreadcrumbs "/" false none (fun _ => none) =
      [{ label := "Home", href := "/", isLast := false }] := by
  decide

/-- Unfolding equation for one `buildCrumbs` step. -/
theorem buildCrumbs_cons (hR : Bool) (dyn : Option String)
    (rN : String → Option String) (cur seg : String) (rest : List String) :
    buildCrumbs hR dyn rN cur (seg :: rest) =
      { label := crumbLabel hR dyn rN rest.isEmpty seg,
        href := cur ++ "/" ++ seg, isLast := rest.isEmpty } ::
        buildCrumbs hR dyn rN (cur ++ "/" ++ seg) rest := rfl

/-- The isLast flags produced by `buildCrumbs` on a nonempty segment list:
false everywhere except the final entry. -/
theorem buildCrumbs_isLast_map (hR : Bool) (dyn : Option String)
    (rN : String → Option String) (segs : List String) :
    ∀ cur : String, segs ≠ [] →
      (buildCrumbs hR dyn rN cur segs).map BreadcrumbItem.isLast =
        List.replicate (segs.length - 1) false ++ [true] := by
  induction segs with
  | nil => intro cur h; exact absurd rfl h
  | cons s rest ih =>
    intro cur _
    cases rest with
    | nil => rfl
    | cons s2 rest2 =>
      have h2 := ih (cur ++ "/" ++ s) (List.cons_ne_nil _ _)
      rw [buildCrumbs_cons, List.map_cons, h2]
      simp [List.replicate_succ]

/-- Claim C7 (amended): the breadcrumb list always starts with the Home
entry; when the path has at least one non-empty segment, exactly the final
entry carries isLast = true and every earlier entry carries false; at the
root path (no non-empty segments) the list is the Home entry alone, whose
isLast flag is false, so it renders as a link rather than as terminal text
(the original claim asserted isLast = true for the last entry of every path,
which the root-path counterexample refutes). -/
theorem breadcrumbs_terminal_shape (pathname : String) (hasResolver : Bool)
    (dynamicLabel : Option String) (routeNames : String → Option String) :
    ((getBreadcrumbs pathname hasResolver dynamicLabel routeNames).head? =
        some { label := "Home", href := "/", isLast := false }) ∧
    ((getBreadcrumbs pathname hasResolver dynamicLabel routeNames).map
        BreadcrumbItem.isLast =
      if (pathSegments pathname).isEmpty then [false]
      else List.replicate (pathSegments pathname).length false ++ [true]) := by
  constructor
  · rfl
  · rcases hs : pathSegments pathname with _ | ⟨a, as⟩
    · simp [getBreadcrumbs, hs, buildCrumbs]
    · have h2 := buildCrumbs_isLast_map hasResolver dynamicLabel routeNames
        (a :: as) "" (List.cons_ne_nil _ _)
      simp only [getBreadcrumbs, hs, List.map_cons, h2]
      simp [List.replicate_succ]

/-- Every internal ErrorBoundary transition lands in a state with
`hasError = true`. -/
theorem ebStep_hasError {a b : EBState} (h : EBStep a b) : b.hasError = true := by
  cases h with
  | caught e info => rfl

/-- Claim C8: once a rendering error is caught, the boundary renders the
static fallback, and along every sequence of subsequent internal transitions
`hasError` stays true, so the original children are never rendered again
until remount. -/
theorem errorBoundary_latched (s : EBState) (e info : String) :
    (render (componentDidCatch (getDerivedStateFromError s) e info) =
        RenderOutput.fallback) ∧
    (∀ t : EBState,
        Relation.ReflTransGen EBStep
          (componentDidCatch (getDerivedStateFromError s) e info) t →
        t.hasError = true ∧ render t = RenderOutput.fallback) := by
  constructor
  · rfl
  · intro t h
    induction h with
    | refl => exact ⟨rfl, rfl⟩
    | tail _ hstep _ =>
      have hE := ebStep_hasError hstep
      exact ⟨hE, by simp [render, hE]⟩

/-- Witness for C8 at the initial state with a concrete error. -/
theorem errorBoundary_latched_witness :
    render (componentDidCatch (getDerivedStateFromError ebInitial) "boom" "stack") =
      RenderOutput.fallback ∧
    (componentDidCatch (getDerivedStateFromError ebInitial) "boom" "stack").hasError =
      true :=
  ⟨(errorBoundary_latched ebInitial "boom" "stack").1,
   ((errorBoundary_latched ebInitial "boom" "stack").2 _
      Relation.ReflTransGen.refl).1⟩

/-- The poll loop `tryRestore` ends at the first attempt (at most the tenth)
whose document reading shows scrollable content, or at the tenth attempt,
and issues the clamped non-smooth jump computed from that attempt's
reading. -/
theorem tryRestore_poll (saved : Int) (heights : Nat → Nat × Nat) :
    ∀ fuel attempts, 10 - attempts = fuel → attempts < 10 →
      ∃ k, attempts < k ∧ k ≤ 10 ∧
        ((heights k).2 < (heights k).1 ∨ k = 10) ∧
        (∀ j, attempts < j → j < k → ¬(heights j).2 < (heights j).1) ∧
        tryRestore saved heights attempts =
          { top := min saved (((heights k).1 : Int) - ((heights k).2 : Int)),
            smooth := false } := by
  intro fuel
  induction fuel with
  | zero => intro attempts h1 h2; omega
  | succ n ih =>
    intro attempts h1 h2
    by_cases hc : (heights (attempts + 1)).2 < (heights (attempts + 1)).1 ∨
        10 ≤ attempts + 1
    · refine ⟨attempts + 1, Nat.lt_succ_self _, by omega, ?_, ?_, ?_⟩
      · rcases hc with hc | hc
        · exact Or.inl hc
        · exact Or.inr (by omega)
      · intro j hj1 hj2; omega
      · rw [tryRestore, dif_pos hc]
    · have hnc : ¬(heights (attempts + 1)).2 < (heights (attempts + 1)).1 :=
        fun hcc => hc (Or.inl hcc)
      have hlt : attempts + 1 < 10 := by
        rcases Nat.lt_or_ge (attempts + 1) 10 with hl | hg
        · exact hl
        · exact absurd (Or.inr hg) hc
      obtain ⟨k, hk1, hk2, hk3, hk4, hk5⟩ := ih (attempts + 1) (by omega) hlt
      refine ⟨k, by omega, hk2, hk3, ?_, ?_⟩
      · intro j hj1 hj2
        rcases Nat.lt_or_ge j (attempts + 2) with hj | hj
        · have hje : j = attempts + 1 := by omega
          rw [hje]
          exact hnc
        · exact hk4 j (by omega) hj2
      · rw [tryRestore, dif_neg hc]
        exact hk5

/-- Claim C4: arriving at a path with a stored positive offset scrolls, once
the bounded poll ends (first attempt whose reading shows content, or the
tenth attempt), to min(storedOffset, scrollHeight - viewportHeight) with no
smooth animation; arriving with no stored offset, or one not greater than
zero, scrolls to offset 0. -/
theorem scroll_restore_on_arrival :
    (∀ (p : Int) (heights : Nat → Nat × Nat), 0 < p →
      ∃ k, 1 ≤ k ∧ k ≤ 10 ∧
        ((heights k).2 < (heights k).1 ∨ k = 10) ∧
        (∀ j, 1 ≤ j → j < k → ¬(heights j).2 < (heights j).1) ∧
        routeChangeScroll (some p) heights =
          { top := min p (((heights k).1 : Int) - ((heights k).2 : Int)),
            smooth := false }) ∧
    (∀ heights : Nat → Nat × Nat,
        routeChangeScroll none heights = { top := 0, smooth := false }) ∧
    (∀ (p : Int) (heights : Nat → Nat × Nat), p ≤ 0 →
        routeChangeScroll (some p) heights = { top := 0, smooth := false }) := by
  refine ⟨?_, fun _ => rfl, ?_⟩
  · intro p heights hp
    obtain ⟨k, hk1, hk2, hk3, hk4, hk5⟩ :=
      tryRestore_poll p heights 10 0 rfl (by omega)
    refine ⟨k, hk1, hk2, hk3, hk4, ?_⟩
    simpa [routeChangeScroll, hp] using hk5
  · intro p heights hp
    simp [routeChangeScroll, if_neg (not_lt.mpr hp)]

/-- Witness for C4: a stored offset of 500 with a tall document restores to
500, and a stored offset of 0 jumps to the top. -/
theorem scroll_restore_on_arrival_witness :
    routeChangeScroll (some 500) (fun _ => (2000, 800)) =
      { top := 500, smooth := false } ∧
    routeChangeScroll (some 0) (fun _ => (2000, 800)) =
      { top := 0, smooth := false } := by
  constructor
  · obtain ⟨k, _, _, _, _, h5⟩ :=
      scroll_restore_on_arrival.1 500 (fun _ => (2000, 800)) (by norm_num)
    rw [h5]
    norm_num
  · exact scroll_restore_on_arrival.2.2 0 (fun _ => (2000, 800)) le_rfl
